import Mathlib

/-
Verification of the MATSim synthetic-population generator
(src/input/synthpop.py) against its specification.

The generator is embedded shallowly:

* the ElementTree document is the inductive type `XNode`
  (tag, attributes in insertion order, optional text, children);
* `datetime` instants are exact rational numbers of seconds counted from
  midnight of the reference day 0; the reference day returned by
  `datetime.now()` enters as an explicit `day` parameter (the program
  calls `now()` twice in immediate succession; both calls are modelled
  as returning the same day);
* Python's float arithmetic on seconds is modelled by exact rational
  arithmetic (`ℚ`); `strftime("%H:%M:%S")` drops the date and the
  fractional second, which is floor followed by reduction mod 86400;
* `random.randint(a, b)` is modelled as `a + r % (b - a + 1)` for an
  ambient stream `rnd : ℕ → ℕ` of raw draws, one per trip slot, which
  makes the range contract of `randint` a theorem rather than an axiom.
-/

/-- Document node of the ElementTree model: tag, attributes in insertion
order, optional text content, and child nodes. -/
inductive XNode where
  | elem (tag : String) (attrs : List (String × String)) (text : Option String)
      (children : List XNode)

/-- Tag of a node. -/
def XNode.tag : XNode → String
  | .elem t _ _ _ => t

/-- Attribute list of a node, in insertion order. -/
def XNode.attrs : XNode → List (String × String)
  | .elem _ a _ _ => a

/-- Text content of a node. -/
def XNode.text : XNode → Option String
  | .elem _ _ tx _ => tx

/-- Children of a node. -/
def XNode.children : XNode → List XNode
  | .elem _ _ _ c => c

/-- Lookup of an attribute value by key, like `Element.get`. -/
def XNode.getAttr (n : XNode) (k : String) : Option String :=
  (n.attrs.find? (fun p => p.1 == k)).map Prod.snd

/-- Default node used by total list indexing in statements. -/
def d0 : XNode := .elem "" [] none []

/-- Zero padding to two digits, as in `strftime`'s `%H`, `%M`, `%S`. -/
def fmt2 (n : ℕ) : String :=
  if n < 10 then "0" ++ toString n else toString n

/-- Rendering of a second-of-day count as `HH:MM:SS`. -/
def hhmmss (n : ℕ) : String :=
  fmt2 (n / 3600) ++ ":" ++ fmt2 (n % 3600 / 60) ++ ":" ++ fmt2 (n % 60)

/-- Model of `t.strftime("%H:%M:%S")` for an instant `t` in rational
seconds from midnight of day 0: the date and the fractional second are
dropped, leaving the wall-clock second of day. -/
def strftime_HMS (t : ℚ) : String :=
  hhmmss ((⌊t⌋ % 86400).toNat)

/-- Model of `random.randint a b`: the draw consumes one raw value `r`
from the ambient stream and yields `a + r % (b - a + 1)`, which lies in
`[a, b]` whenever `a ≤ b`. -/
def randint (a b : ℤ) (r : ℕ) : ℤ :=
  a + (r : ℤ) % (b - a + 1)

/-- Source line: `vehicle_types = ['ev', 'lev', 'hev']`. -/
def vehicle_types : List String := ["ev", "lev", "hev"]

/-- Source: `start_time = datetime.now().replace(hour=start_hour, minute=0,
second=0, microsecond=0)`, in seconds from midnight of day 0. -/
def start_time (day start_hour : ℕ) : ℚ :=
  day * 86400 + start_hour * 3600

/-- Source: `end_time = datetime.now().replace(hour=end_hour, ...)` followed
by `if end_hour <= start_hour: end_time += timedelta(days=1)`. -/
def end_time (day start_hour end_hour : ℕ) : ℚ :=
  (day * 86400 + end_hour * 3600 : ℚ) + (if end_hour ≤ start_hour then 86400 else 0)

/-- Source: `time_window = (end_time - start_time).total_seconds()`. -/
def time_window (day start_hour end_hour : ℕ) : ℚ :=
  end_time day start_hour end_hour - start_time day start_hour

/-- Source: `time_per_trip = time_window / total_trips` with
`total_trips = num_agents * trips_per_agent`. -/
def time_per_trip (day num_agents trips_per_agent start_hour end_hour : ℕ) : ℚ :=
  time_window day start_hour end_hour / ((num_agents * trips_per_agent : ℕ) : ℚ)

/-- Source: `max_variation = int(time_per_trip * 0.1)`. Python's `int`
truncates toward zero; `time_per_trip` is nonnegative in every reachable
call, where truncation agrees with the floor used here. -/
def max_variation (tpt : ℚ) : ℤ :=
  ⌊tpt * (1 / 10)⌋

/-- Source: `variation = random.randint(-max_variation, max_variation)`,
drawing the raw value for trip slot `slot` from the stream `rnd`. -/
def variation (tpt : ℚ) (rnd : ℕ → ℕ) (slot : ℕ) : ℤ :=
  randint (-(max_variation tpt)) (max_variation tpt) (rnd slot)

/-- Source: `trip_time = start_time + timedelta(seconds=trip_slot *
time_per_trip)` followed by `trip_time += timedelta(seconds=variation)`. -/
def trip_time (st tpt : ℚ) (rnd : ℕ → ℕ) (slot : ℕ) : ℚ :=
  st + slot * tpt + ((variation tpt rnd slot : ℤ) : ℚ)

/-- First activity of a trip: type and link by direction, `end_time`
always set to the jittered trip time. -/
def first_act (is_westbound : Bool) (t : ℚ) : XNode :=
  .elem "activity"
    [("type", if is_westbound then "work" else "home"),
     ("link", if is_westbound then "6" else "1"),
     ("end_time", strftime_HMS t)]
    none []

/-- Leg of a trip: mode `car`, containing the route whose text is one of
the two fixed link sequences, chosen by direction. -/
def leg_node (is_westbound : Bool) : XNode :=
  .elem "leg" [("mode", "car")] none
    [.elem "route" [("type", "links")]
      (some (if is_westbound then "6,4,2" else "1,3,5")) []]

/-- Final activity of a trip: type and link by direction; `end_time` is
set to the trip time plus 30 minutes only when this is not the agent's
last trip (`trip_num < trips_per_agent - 1`). -/
def final_act (is_westbound : Bool) (trips_per_agent trip_num : ℕ) (t : ℚ) : XNode :=
  .elem "activity"
    ([("type", if is_westbound then "home" else "work"),
      ("link", if is_westbound then "1" else "6")] ++
     (if trip_num < trips_per_agent - 1
      then [("end_time", strftime_HMS (t + 30 * 60))] else []))
    none []

/-- One iteration of the trip loop: `is_westbound = (trip_num % 2 == 1)`,
then the three nodes appended to the plan for this trip. -/
def trip_nodes (trips_per_agent trip_num : ℕ) (t : ℚ) : List XNode :=
  [first_act (trip_num % 2 == 1) t,
   leg_node (trip_num % 2 == 1),
   final_act (trip_num % 2 == 1) trips_per_agent trip_num t]

/-- One iteration of the agent loop: vehicle type rotates through
`vehicle_types`, the id is `<vehicleType>_agent_<index>`, the attribute
text is `<vehicleType>_car`, and the plan collects the trip nodes, one
trip slot per trip, slots numbered `agent_num * trips_per_agent + trip_num`. -/
def person_node (st tpt : ℚ) (rnd : ℕ → ℕ) (trips_per_agent agent_num : ℕ) : XNode :=
  let vehicle_type := vehicle_types.getD (agent_num % vehicle_types.length) ""
  .elem "person" [("id", vehicle_type ++ "_agent_" ++ toString agent_num)] none
    [.elem "attributes" [] none
      [.elem "attribute" [("name", "vehicleType"), ("class", "java.lang.String")]
        (some (vehicle_type ++ "_car")) []],
     .elem "plan" [("selected", "yes")] none
      (((List.range trips_per_agent).map (fun trip_num =>
        trip_nodes trips_per_agent trip_num
          (trip_time st tpt rnd (agent_num * trips_per_agent + trip_num)))).flatten)]

/-- Embedding of `create_population(num_agents, trips_per_agent,
start_hour, end_hour)`: the returned population tree. `day` is the
reference day of `datetime.now()` and `rnd` the stream of raw random
draws, one per trip slot. -/
def create_population (day : ℕ) (rnd : ℕ → ℕ)
    (num_agents trips_per_agent start_hour end_hour : ℕ) : XNode :=
  .elem "population" [] none
    ((List.range num_agents).map (fun agent_num =>
      person_node (start_time day start_hour)
        (time_per_trip day num_agents trips_per_agent start_hour end_hour)
        rnd trips_per_agent agent_num))

/-- Person at index `i` of a population tree. -/
def person_of (pop : XNode) (i : ℕ) : XNode :=
  pop.children.getD i d0

/-- Plan of the person at index `i` (second child of the person). -/
def plan_of (pop : XNode) (i : ℕ) : XNode :=
  (person_of pop i).children.getD 1 d0

/-- Sequence of `end_time` attribute values appearing in the plan of the
person at index `i`, in document order. -/
def plan_end_times (pop : XNode) (i : ℕ) : List String :=
  (plan_of pop i).children.filterMap (fun n => n.getAttr "end_time")

/-- Resolution of the person list: child `i` of the population is the
`person_node` for agent `i`. -/
lemma create_population_child (day : ℕ) (rnd : ℕ → ℕ) (a t s e i : ℕ) (hi : i < a) :
    (create_population day rnd a t s e).children[i]? =
      some (person_node (start_time day s) (time_per_trip day a t s e) rnd t i) := by
  simp [create_population, XNode.children, List.getElem?_range hi]

/-- Resolution of `person_of` for an in-range index. -/
lemma person_of_eq (day : ℕ) (rnd : ℕ → ℕ) (a t s e i : ℕ) (hi : i < a) :
    person_of (create_population day rnd a t s e) i =
      person_node (start_time day s) (time_per_trip day a t s e) rnd t i := by
  simp [person_of, List.getD_eq_getElem?_getD, create_population_child day rnd a t s e i hi]

/-- Children of the plan of agent `i`: the flattened per-trip blocks. -/
lemma plan_children_eq (day : ℕ) (rnd : ℕ → ℕ) (a t s e i : ℕ) (hi : i < a) :
    (plan_of (create_population day rnd a t s e) i).children =
      ((List.range t).map (fun k =>
        trip_nodes t k (trip_time (start_time day s) (time_per_trip day a t s e) rnd
          (i * t + k)))).flatten := by
  simp [plan_of, person_of_eq day rnd a t s e i hi, person_node, XNode.children]

/-- Indexing into a flattened list of blocks of length 3. -/
lemma flatten_blocks_getElem? (L : List (List XNode)) (h : ∀ l ∈ L, l.length = 3)
    (k j : ℕ) (hj : j < 3) :
    L.flatten[3 * k + j]? = ((L[k]?).getD [])[j]? := by
  induction L generalizing k with
  | nil => simp
  | cons l L ih =>
    have hl : l.length = 3 := h l (List.mem_cons_self l L)
    cases k with
    | zero =>
      have hlt : 3 * 0 + j < l.length := by omega
      simp only [List.flatten_cons, List.getElem?_append_left hlt]
      simp
    | succ k =>
      have hge : l.length ≤ 3 * (k + 1) + j := by omega
      rw [List.flatten_cons, List.getElem?_append_right hge]
      have harith : 3 * (k + 1) + j - l.length = 3 * k + j := by omega
      rw [harith, ih (fun l' hl' => h l' (List.mem_cons_of_mem _ hl'))]
      simp

/-- Node `3*k + j` of agent `i`'s plan is node `j` of the trip block for
trip `k`, for `k < t` and `j < 3`. -/
lemma plan_getD (day : ℕ) (rnd : ℕ → ℕ) (a t s e i k j : ℕ)
    (hi : i < a) (hk : k < t) (hj : j < 3) :
    (plan_of (create_population day rnd a t s e) i).children.getD (3 * k + j) d0 =
      (trip_nodes t k (trip_time (start_time day s) (time_per_trip day a t s e) rnd
        (i * t + k))).getD j d0 := by
  have hlen : ∀ l ∈ (List.range t).map (fun k =>
      trip_nodes t k (trip_time (start_time day s) (time_per_trip day a t s e) rnd
        (i * t + k))), l.length = 3 := by
    intro l hl
    rw [List.mem_map] at hl
    obtain ⟨k', hk', rfl⟩ := hl
    rfl
  rw [List.getD_eq_getElem?_getD, List.getD_eq_getElem?_getD,
    plan_children_eq day rnd a t s e i hi,
    flatten_blocks_getElem? _ hlen k j hj]
  simp [List.getElem?_map, List.getElem?_range hk]

/-- Tag sequence of agent `i`'s plan: `t` copies of
`["activity", "leg", "activity"]`, concatenated. -/
lemma plan_tags (day : ℕ) (rnd : ℕ → ℕ) (a t s e i : ℕ) (hi : i < a) :
    (plan_of (create_population day rnd a t s e) i).children.map XNode.tag =
      (List.replicate t ["activity", "leg", "activity"]).flatten := by
  rw [plan_children_eq day rnd a t s e i hi]
  rw [List.map_flatten, List.map_map]
  congr 1
  have : ∀ k : ℕ, (List.map XNode.tag ∘ fun k =>
      trip_nodes t k (trip_time (start_time day s) (time_per_trip day a t s e) rnd
        (i * t + k))) k = ["activity", "leg", "activity"] := by
    intro k; rfl
  calc (List.range t).map _ = (List.range t).map (fun _ => ["activity", "leg", "activity"]) :=
        List.map_congr_left (fun k _ => this k)
    _ = List.replicate t ["activity", "leg", "activity"] := by
        simp [List.map_const]

/-- Evaluation of attribute lookups on a first activity. -/
lemma first_act_getAttr (w : Bool) (t : ℚ) :
    (first_act w t).getAttr "end_time" = some (strftime_HMS t) ∧
    (first_act w t).getAttr "type" = some (if w then "work" else "home") ∧
    (first_act w t).getAttr "link" = some (if w then "6" else "1") := by
  refine ⟨rfl, rfl, rfl⟩

/-- Evaluation of the route text carried by a leg. -/
lemma leg_node_route_text (w : Bool) :
    ((leg_node w).children.getD 0 d0).text = some (if w then "6,4,2" else "1,3,5") := rfl

/-- Evaluation of type and link on a final activity. -/
lemma final_act_getAttr (w : Bool) (tpa k : ℕ) (t : ℚ) :
    (final_act w tpa k t).getAttr "type" = some (if w then "home" else "work") ∧
    (final_act w tpa k t).getAttr "link" = some (if w then "1" else "6") := by
  constructor <;>
    · unfold final_act XNode.getAttr XNode.attrs
      cases hc : decide (k < tpa - 1) <;> simp_all [List.find?]

/-- Evaluation of `end_time` on a final activity that is not the agent's
last one. -/
lemma final_act_getAttr_end_time_of_lt (w : Bool) (tpa k : ℕ) (t : ℚ) (h : k < tpa - 1) :
    (final_act w tpa k t).getAttr "end_time" = some (strftime_HMS (t + 30 * 60)) := by
  unfold final_act XNode.getAttr XNode.attrs
  rw [if_pos h]
  rfl

/-- Evaluation of `end_time` on the agent's last final activity. -/
lemma final_act_getAttr_end_time_of_last (w : Bool) (tpa k : ℕ) (t : ℚ) (h : ¬ k < tpa - 1) :
    (final_act w tpa k t).getAttr "end_time" = none := by
  unfold final_act XNode.getAttr XNode.attrs
  rw [if_neg h]
  rfl

/-- Length of a plan's child list: three nodes per trip. -/
lemma plan_children_length (day : ℕ) (rnd : ℕ → ℕ) (a t s e i : ℕ) (hi : i < a) :
    (plan_of (create_population day rnd a t s e) i).children.length = 3 * t := by
  have h := congrArg List.length (plan_tags day rnd a t s e i hi)
  rw [List.length_map] at h
  rw [h, List.length_flatten, List.map_replicate, List.sum_replicate, smul_eq_mul]
  simp only [List.length_cons, List.length_nil]
  omega

/-- Count of leg-tagged nodes in `t` concatenated trip blocks. -/
lemma count_leg_flatten (t : ℕ) :
    ((List.replicate t (["activity", "leg", "activity"] : List String)).flatten.countP
      (fun s => s == "leg")) = t := by
  induction t with
  | zero => rfl
  | succ n ih =>
    rw [List.replicate_succ, List.flatten_cons, List.countP_append, ih]
    have hone : List.countP (fun s => s == "leg")
        (["activity", "leg", "activity"] : List String) = 1 := by decide
    omega

/-- Evaluation of the trip block at position 0: the first activity. -/
lemma trip_nodes_getD_0 (tpa k : ℕ) (τ : ℚ) :
    (trip_nodes tpa k τ).getD 0 d0 = first_act (k % 2 == 1) τ := rfl

/-- Evaluation of the trip block at position 1: the leg. -/
lemma trip_nodes_getD_1 (tpa k : ℕ) (τ : ℚ) :
    (trip_nodes tpa k τ).getD 1 d0 = leg_node (k % 2 == 1) := rfl

/-- Evaluation of the trip block at position 2: the final activity. -/
lemma trip_nodes_getD_2 (tpa k : ℕ) (τ : ℚ) :
    (trip_nodes tpa k τ).getD 2 d0 = final_act (k % 2 == 1) tpa k τ := rfl

/-- C1: for every valid input (`agent_count > 0`, `trips_per_agent > 0`,
hours in `[0,23]`), the population produced by `create_population`
contains exactly `agent_count` person elements, and each person's plan
contains exactly `trips_per_agent` leg elements. -/
theorem C1_population_counts (day : ℕ) (rnd : ℕ → ℕ) (a t s e : ℕ)
    (ha : 0 < a) (ht : 0 < t) (hs : s ≤ 23) (he : e ≤ 23) :
    (create_population day rnd a t s e).children.length = a ∧
    (∀ p ∈ (create_population day rnd a t s e).children, p.tag = "person") ∧
    (∀ i < a, ((plan_of (create_population day rnd a t s e) i).children.countP
      (fun n => n.tag == "leg")) = t) := by
  refine ⟨?_, ?_, ?_⟩
  · simp [create_population, XNode.children]
  · intro p hp
    simp only [create_population, XNode.children, List.mem_map] at hp
    obtain ⟨i', _, rfl⟩ := hp
    rfl
  · intro i hi
    have hcnt : (plan_of (create_population day rnd a t s e) i).children.countP
        (fun n => n.tag == "leg")
        = ((plan_of (create_population day rnd a t s e) i).children.map XNode.tag).countP
            (fun s => s == "leg") := by
      rw [List.countP_map]
      rfl
    rw [hcnt, plan_tags day rnd a t s e i hi, count_leg_flatten]

/-- Witness for C1 at `day = 0`, `rnd ≡ 0`, two agents, two trips each,
window 06:00 to 09:00. -/
theorem C1_population_counts_witness :
    0 < 2 ∧ 0 < 2 ∧ 6 ≤ 23 ∧ 9 ≤ 23 ∧
    ((create_population 0 (fun _ => 0) 2 2 6 9).children.length = 2 ∧
     (∀ p ∈ (create_population 0 (fun _ => 0) 2 2 6 9).children, p.tag = "person") ∧
     (∀ i < 2, ((plan_of (create_population 0 (fun _ => 0) 2 2 6 9) i).children.countP
       (fun n => n.tag == "leg")) = 2)) :=
  ⟨by decide, by decide, by decide, by decide,
    C1_population_counts 0 (fun _ => 0) 2 2 6 9 (by decide) (by decide) (by decide) (by decide)⟩

/-- C2: in every agent's plan, the first activity of each trip carries an
`end_time` equal to that trip's jittered departure instant; the final
activity of trip `k` carries an `end_time` exactly when `k <
trips_per_agent - 1`, in which case it is the jittered departure instant
plus 30 minutes; the final activity of the last trip carries none. -/
theorem C2_end_times (day : ℕ) (rnd : ℕ → ℕ) (a t s e i k : ℕ) (hi : i < a) (hk : k < t) :
    ((plan_of (create_population day rnd a t s e) i).children.getD (3 * k) d0).getAttr "end_time"
      = some (strftime_HMS
          (trip_time (start_time day s) (time_per_trip day a t s e) rnd (i * t + k))) ∧
    (k < t - 1 →
      ((plan_of (create_population day rnd a t s e) i).children.getD (3 * k + 2) d0).getAttr
          "end_time"
        = some (strftime_HMS
            (trip_time (start_time day s) (time_per_trip day a t s e) rnd (i * t + k) + 30 * 60))) ∧
    (k = t - 1 →
      ((plan_of (create_population day rnd a t s e) i).children.getD (3 * k + 2) d0).getAttr
          "end_time" = none) := by
  have h0 := plan_getD day rnd a t s e i k 0 hi hk (by omega)
  have h2 := plan_getD day rnd a t s e i k 2 hi hk (by omega)
  simp only [Nat.add_zero] at h0
  refine ⟨?_, ?_, ?_⟩
  · rw [h0, trip_nodes_getD_0]
    exact (first_act_getAttr _ _).1
  · intro hlt
    rw [h2, trip_nodes_getD_2]
    exact final_act_getAttr_end_time_of_lt _ _ _ _ hlt
  · intro heq
    rw [h2, trip_nodes_getD_2]
    exact final_act_getAttr_end_time_of_last _ _ _ _ (by omega)

/-- Witness for C2 at agent 0, trip 0 of a two-trip schedule. -/
theorem C2_end_times_witness :
    0 < 1 ∧ 0 < 2 ∧
    (((plan_of (create_population 0 (fun _ => 0) 1 2 6 9) 0).children.getD 0 d0).getAttr "end_time"
       = some (strftime_HMS
           (trip_time (start_time 0 6) (time_per_trip 0 1 2 6 9) (fun _ => 0) 0)) ∧
     (0 < 2 - 1 →
       ((plan_of (create_population 0 (fun _ => 0) 1 2 6 9) 0).children.getD 2 d0).getAttr
           "end_time"
         = some (strftime_HMS
             (trip_time (start_time 0 6) (time_per_trip 0 1 2 6 9) (fun _ => 0) 0 + 30 * 60))) ∧
     (0 = 2 - 1 →
       ((plan_of (create_population 0 (fun _ => 0) 1 2 6 9) 0).children.getD 2 d0).getAttr
           "end_time" = none)) :=
  ⟨by decide, by decide, C2_end_times 0 (fun _ => 0) 1 2 6 9 0 0 (by decide) (by decide)⟩

/-- C3: even-indexed trips are eastbound (first activity `home` at link
`1`, route text `1,3,5`, final activity `work` at link `6`), odd-indexed
trips are westbound (first activity `work` at link `6`, route text
`6,4,2`, final activity `home` at link `1`), so directions alternate
strictly within each agent, starting eastbound. -/
theorem C3_directions (day : ℕ) (rnd : ℕ → ℕ) (a t s e i k : ℕ) (hi : i < a) (hk : k < t) :
    (k % 2 = 0 →
      ((plan_of (create_population day rnd a t s e) i).children.getD (3 * k) d0).getAttr "type"
          = some "home" ∧
      ((plan_of (create_population day rnd a t s e) i).children.getD (3 * k) d0).getAttr "link"
          = some "1" ∧
      (((plan_of (create_population day rnd a t s e) i).children.getD (3 * k + 1)
          d0).children.getD 0 d0).text = some "1,3,5" ∧
      ((plan_of (create_population day rnd a t s e) i).children.getD (3 * k + 2) d0).getAttr "type"
          = some "work" ∧
      ((plan_of (create_population day rnd a t s e) i).children.getD (3 * k + 2) d0).getAttr "link"
          = some "6") ∧
    (k % 2 = 1 →
      ((plan_of (create_population day rnd a t s e) i).children.getD (3 * k) d0).getAttr "type"
          = some "work" ∧
      ((plan_of (create_population day rnd a t s e) i).children.getD (3 * k) d0).getAttr "link"
          = some "6" ∧
      (((plan_of (create_population day rnd a t s e) i).children.getD (3 * k + 1)
          d0).children.getD 0 d0).text = some "6,4,2" ∧
      ((plan_of (create_population day rnd a t s e) i).children.getD (3 * k + 2) d0).getAttr "type"
          = some "home" ∧
      ((plan_of (create_population day rnd a t s e) i).children.getD (3 * k + 2) d0).getAttr "link"
          = some "1") := by
  have h0 := plan_getD day rnd a t s e i k 0 hi hk (by omega)
  have h1 := plan_getD day rnd a t s e i k 1 hi hk (by omega)
  have h2 := plan_getD day rnd a t s e i k 2 hi hk (by omega)
  simp only [Nat.add_zero] at h0
  rw [h0, trip_nodes_getD_0, h1, trip_nodes_getD_1, h2, trip_nodes_getD_2]
  constructor
  · intro hk2
    have hw : (k % 2 == 1) = false := by rw [hk2]; rfl
    rw [hw]
    exact ⟨(first_act_getAttr false _).2.1, (first_act_getAttr false _).2.2,
      leg_node_route_text false, (final_act_getAttr false _ _ _).1,
      (final_act_getAttr false _ _ _).2⟩
  · intro hk2
    have hw : (k % 2 == 1) = true := by rw [hk2]; rfl
    rw [hw]
    exact ⟨(first_act_getAttr true _).2.1, (first_act_getAttr true _).2.2,
      leg_node_route_text true, (final_act_getAttr true _ _ _).1,
      (final_act_getAttr true _ _ _).2⟩

/-- Witness for C3 at agent 0, trips 0 and 1 of a two-trip schedule
(conclusion instantiated at trip 0; trip 1 is covered by the same theorem
at `k = 1`, exercised here through the odd branch with `k = 1`). -/
theorem C3_directions_witness :
    0 < 1 ∧ 1 < 2 ∧
    ((1 % 2 = 0 →
      ((plan_of (create_population 0 (fun _ => 0) 1 2 6 9) 0).children.getD (3 * 1) d0).getAttr
          "type" = some "home" ∧
      ((plan_of (create_population 0 (fun _ => 0) 1 2 6 9) 0).children.getD (3 * 1) d0).getAttr
          "link" = some "1" ∧
      (((plan_of (create_population 0 (fun _ => 0) 1 2 6 9) 0).children.getD (3 * 1 + 1)
          d0).children.getD 0 d0).text = some "1,3,5" ∧
      ((plan_of (create_population 0 (fun _ => 0) 1 2 6 9) 0).children.getD (3 * 1 + 2)
          d0).getAttr "type" = some "work" ∧
      ((plan_of (create_population 0 (fun _ => 0) 1 2 6 9) 0).children.getD (3 * 1 + 2)
          d0).getAttr "link" = some "6") ∧
    (1 % 2 = 1 →
      ((plan_of (create_population 0 (fun _ => 0) 1 2 6 9) 0).children.getD (3 * 1) d0).getAttr
          "type" = some "work" ∧
      ((plan_of (create_population 0 (fun _ => 0) 1 2 6 9) 0).children.getD (3 * 1) d0).getAttr
          "link" = some "6" ∧
      (((plan_of (create_population 0 (fun _ => 0) 1 2 6 9) 0).children.getD (3 * 1 + 1)
          d0).children.getD 0 d0).text = some "6,4,2" ∧
      ((plan_of (create_population 0 (fun _ => 0) 1 2 6 9) 0).children.getD (3 * 1 + 2)
          d0).getAttr "type" = some "home" ∧
      ((plan_of (create_population 0 (fun _ => 0) 1 2 6 9) 0).children.getD (3 * 1 + 2)
          d0).getAttr "link" = some "1")) :=
  ⟨by decide, by decide, C3_directions 0 (fun _ => 0) 1 2 6 9 0 1 (by decide) (by decide)⟩

/-- C6 (amended): the person id at index `i` is exactly
`{ev,lev,hev}[i mod 3] ++ "_agent_" ++ i`, and the `vehicleType`
attribute's stored value is `{ev,lev,hev}[i mod 3] ++ "_car"` (not the
bare type tag). -/
theorem C6_vehicle_type_and_id (day : ℕ) (rnd : ℕ → ℕ) (a t s e i : ℕ) (hi : i < a) :
    (person_of (create_population day rnd a t s e) i).getAttr "id"
        = some (vehicle_types.getD (i % 3) "" ++ "_agent_" ++ toString i) ∧
    (((person_of (create_population day rnd a t s e) i).children.getD 0 d0).children.getD 0
        d0).getAttr "name" = some "vehicleType" ∧
    (((person_of (create_population day rnd a t s e) i).children.getD 0 d0).children.getD 0
        d0).text = some (vehicle_types.getD (i % 3) "" ++ "_car") := by
  rw [person_of_eq day rnd a t s e i hi]
  exact ⟨rfl, rfl, rfl⟩

/-- Witness for C6 at agent 4 of a five-agent population
(`4 % 3 = 1`, vehicle type `lev`). -/
theorem C6_vehicle_type_and_id_witness :
    4 < 5 ∧
    ((person_of (create_population 0 (fun _ => 0) 5 1 6 9) 4).getAttr "id"
        = some (vehicle_types.getD (4 % 3) "" ++ "_agent_" ++ toString 4) ∧
     (((person_of (create_population 0 (fun _ => 0) 5 1 6 9) 4).children.getD 0 d0).children.getD 0
        d0).getAttr "name" = some "vehicleType" ∧
     (((person_of (create_population 0 (fun _ => 0) 5 1 6 9) 4).children.getD 0 d0).children.getD 0
        d0).text = some (vehicle_types.getD (4 % 3) "" ++ "_car")) :=
  ⟨by decide, C6_vehicle_type_and_id 0 (fun _ => 0) 5 1 6 9 4 (by decide)⟩

/-- Counterexample for C6 as stated: the claim reads the person's stored
vehicle-type value as the element of `{ev,lev,hev}` itself, but the
attribute text of agent 0 is `"ev_car"`, not `"ev"`. -/
theorem C6_counterexample :
    (((person_of (create_population 0 (fun _ => 0) 1 1 0 1) 0).children.getD 0 d0).children.getD 0
        d0).text = some "ev_car" ∧
    some "ev_car" ≠ some (vehicle_types.getD (0 % 3) "") := by
  constructor
  · rfl
  · decide

/-- Check that no two adjacent entries of a list are equal. -/
def no_repeat_adjacent : List String → Bool
  | [] => true
  | [_] => true
  | a :: b :: rest => (a != b) && no_repeat_adjacent (b :: rest)

/-- Modelled from the spec's words for claim C5: a plan whose children
strictly alternate between activity and leg tags (no two consecutive
activities and no two consecutive legs), beginning and ending with an
activity. -/
def alternating_plan (l : List XNode) : Prop :=
  (l.map XNode.tag).head? = some "activity" ∧
  (l.map XNode.tag).getLast? = some "activity" ∧
  no_repeat_adjacent (l.map XNode.tag) = true

/-- Last tag of `t ≥ 1` concatenated trip blocks. -/
lemma flatten_replicate_getLast (t : ℕ) (ht : 0 < t) :
    ((List.replicate t (["activity", "leg", "activity"] : List String)).flatten).getLast?
      = some "activity" := by
  cases t with
  | zero => omega
  | succ n =>
    rw [List.replicate_succ', List.flatten_append]
    rw [List.getLast?_append_of_ne_nil _ (by decide)]
    rfl

/-- C5 (amended): each trip contributes the node sequence activity, leg,
activity, so the plan's tag sequence is exactly `trips_per_agent`
concatenated copies of `[activity, leg, activity]`; the plan begins and
ends with an activity, but at each boundary between consecutive trips two
activities are adjacent, so activities and legs do not strictly alternate
when `trips_per_agent > 1`. -/
theorem C5_plan_shape (day : ℕ) (rnd : ℕ → ℕ) (a t s e i : ℕ) (hi : i < a) (ht : 0 < t) :
    (plan_of (create_population day rnd a t s e) i).children.map XNode.tag
        = (List.replicate t ["activity", "leg", "activity"]).flatten ∧
    ((plan_of (create_population day rnd a t s e) i).children.map XNode.tag).head?
        = some "activity" ∧
    ((plan_of (create_population day rnd a t s e) i).children.map XNode.tag).getLast?
        = some "activity" := by
  have htags := plan_tags day rnd a t s e i hi
  refine ⟨htags, ?_, ?_⟩
  · rw [htags]
    cases t with
    | zero => omega
    | succ n =>
      rw [List.replicate_succ, List.flatten_cons]
      rfl
  · rw [htags]
    exact flatten_replicate_getLast t ht

/-- Witness for C5's amended statement at one agent with two trips. -/
theorem C5_plan_shape_witness :
    0 < 1 ∧ 0 < 2 ∧
    ((plan_of (create_population 0 (fun _ => 0) 1 2 0 1) 0).children.map XNode.tag
        = (List.replicate 2 ["activity", "leg", "activity"]).flatten ∧
     ((plan_of (create_population 0 (fun _ => 0) 1 2 0 1) 0).children.map XNode.tag).head?
        = some "activity" ∧
     ((plan_of (create_population 0 (fun _ => 0) 1 2 0 1) 0).children.map XNode.tag).getLast?
        = some "activity") :=
  ⟨by decide, by decide, C5_plan_shape 0 (fun _ => 0) 1 2 0 1 0 (by decide) (by decide)⟩

/-- Counterexample for C5 as stated: with one agent and two trips, the
plan's children are activity, leg, activity, activity, leg, activity —
positions 2 and 3 are both activities, so the plan is not a strictly
alternating activity/leg sequence. -/
theorem C5_counterexample :
    ¬ alternating_plan ((plan_of (create_population 0 (fun _ => 0) 1 2 0 1) 0).children) := by
  intro h
  obtain ⟨-, -, hch⟩ := h
  rw [plan_tags 0 (fun _ => 0) 1 2 0 1 0 (by decide)] at hch
  exact absurd hch (by decide)

/-- Day-free closed form of the usable window. -/
lemma time_window_eq (day s e : ℕ) :
    time_window day s e = (e : ℚ) * 3600 - s * 3600 + (if e ≤ s then 86400 else 0) := by
  unfold time_window end_time start_time
  ring

/-- Positivity of the usable window for hours in range. -/
lemma time_window_pos (day s e : ℕ) (hs : s ≤ 23) (he : e ≤ 23) :
    0 < time_window day s e := by
  rw [time_window_eq]
  have hs' : (s : ℚ) ≤ 23 := by exact_mod_cast hs
  split_ifs with h
  · linarith
  · have h' : (s : ℚ) < e := by exact_mod_cast Nat.lt_of_not_le (fun hc => h (by omega))
    linarith

/-- C7: for hours in `[0,23]` the end instant is pushed to the next day
whenever `end_hour ≤ start_hour`, so the window is always positive; it is
`((end_hour - start_hour) mod 24) * 3600` seconds when the hours differ
and a full 86400 seconds when they coincide; in particular
`start_hour = 22, end_hour = 4` gives 21600 seconds. -/
theorem C7_window_length (day s e : ℕ) (hs : s ≤ 23) (he : e ≤ 23) :
    0 < time_window day s e ∧
    (e = s → time_window day s e = 86400) ∧
    (e ≠ s → time_window day s e = ((((e : ℤ) - s) % 24) * 3600 : ℤ)) ∧
    time_window day 22 4 = 21600 := by
  refine ⟨time_window_pos day s e hs he, ?_, ?_, ?_⟩
  · intro heq
    subst heq
    rw [time_window_eq, if_pos le_rfl]
    ring
  · intro hne
    rw [time_window_eq]
    split_ifs with h
    · have he' : e < s := by omega
      have hz : ((e : ℤ) - s) % 24 = (e : ℤ) - s + 24 := by omega
      rw [hz]
      push_cast
      ring
    · have hs' : s < e := by omega
      have hz : ((e : ℤ) - s) % 24 = (e : ℤ) - s := by omega
      rw [hz]
      push_cast
      ring
  · rw [time_window_eq]
    norm_num

/-- Witness for C7 at the overnight window 22:00 to 04:00. -/
theorem C7_window_length_witness :
    22 ≤ 23 ∧ 4 ≤ 23 ∧
    (0 < time_window 0 22 4 ∧
     (4 = 22 → time_window 0 22 4 = 86400) ∧
     (4 ≠ 22 → time_window 0 22 4 = ((((4 : ℤ) - 22) % 24) * 3600 : ℤ)) ∧
     time_window 0 22 4 = 21600) :=
  ⟨by decide, by decide, C7_window_length 0 22 4 (by decide) (by decide)⟩

/-- Positivity of the spacing between consecutive trip slots. -/
lemma time_per_trip_pos (day a t s e : ℕ) (ha : 0 < a) (ht : 0 < t)
    (hs : s ≤ 23) (he : e ≤ 23) :
    0 < time_per_trip day a t s e := by
  unfold time_per_trip
  apply div_pos (time_window_pos day s e hs he)
  have : 0 < a * t := Nat.mul_pos ha ht
  exact_mod_cast this

/-- Nonnegativity of the jitter amplitude. -/
lemma max_variation_nonneg (tpt : ℚ) (h : 0 ≤ tpt) : 0 ≤ max_variation tpt := by
  unfold max_variation
  rw [Int.le_floor]
  push_cast
  positivity

/-- C8: for every valid input and every possible raw draw, the jitter
offset lies in the closed interval `[-⌊spacing * 0.1⌋, ⌊spacing * 0.1⌋]`,
so every jittered departure instant differs from its nominal instant by
at most `⌊spacing * 0.1⌋` seconds. -/
theorem C8_jitter_bounds (day : ℕ) (rnd : ℕ → ℕ) (a t s e slot : ℕ)
    (ha : 0 < a) (ht : 0 < t) (hs : s ≤ 23) (he : e ≤ 23) :
    -(max_variation (time_per_trip day a t s e))
      ≤ variation (time_per_trip day a t s e) rnd slot ∧
    variation (time_per_trip day a t s e) rnd slot
      ≤ max_variation (time_per_trip day a t s e) ∧
    |trip_time (start_time day s) (time_per_trip day a t s e) rnd slot
        - (start_time day s + slot * time_per_trip day a t s e)|
      ≤ ((max_variation (time_per_trip day a t s e) : ℤ) : ℚ) := by
  have htpt : 0 < time_per_trip day a t s e := time_per_trip_pos day a t s e ha ht hs he
  have hmv : 0 ≤ max_variation (time_per_trip day a t s e) :=
    max_variation_nonneg _ (le_of_lt htpt)
  set mv := max_variation (time_per_trip day a t s e) with hmvdef
  have hn : (0 : ℤ) < mv - (-mv) + 1 := by omega
  have hlo : 0 ≤ ((rnd slot : ℤ)) % (mv - (-mv) + 1) :=
    Int.emod_nonneg _ (by omega)
  have hhi : ((rnd slot : ℤ)) % (mv - (-mv) + 1) < mv - (-mv) + 1 :=
    Int.emod_lt_of_pos _ hn
  have hv1 : -mv ≤ variation (time_per_trip day a t s e) rnd slot := by
    unfold variation randint
    rw [← hmvdef]
    omega
  have hv2 : variation (time_per_trip day a t s e) rnd slot ≤ mv := by
    unfold variation randint
    rw [← hmvdef]
    omega
  refine ⟨hv1, hv2, ?_⟩
  have hd : trip_time (start_time day s) (time_per_trip day a t s e) rnd slot
      - (start_time day s + slot * time_per_trip day a t s e)
      = ((variation (time_per_trip day a t s e) rnd slot : ℤ) : ℚ) := by
    unfold trip_time
    ring
  rw [hd]
  rw [abs_le]
  constructor
  · rw [show -((mv : ℤ) : ℚ) = (((-mv : ℤ) : ℤ) : ℚ) by push_cast; ring]
    exact_mod_cast hv1
  · exact_mod_cast hv2

/-- Witness for C8 at two agents, two trips, 06:00 to 09:00, slot 3. -/
theorem C8_jitter_bounds_witness :
    0 < 2 ∧ 0 < 2 ∧ 6 ≤ 23 ∧ 9 ≤ 23 ∧
    (-(max_variation (time_per_trip 0 2 2 6 9))
        ≤ variation (time_per_trip 0 2 2 6 9) (fun _ => 500) 3 ∧
     variation (time_per_trip 0 2 2 6 9) (fun _ => 500) 3
        ≤ max_variation (time_per_trip 0 2 2 6 9) ∧
     |trip_time (start_time 0 6) (time_per_trip 0 2 2 6 9) (fun _ => 500) 3
         - (start_time 0 6 + (3 : ℕ) * time_per_trip 0 2 2 6 9)|
        ≤ ((max_variation (time_per_trip 0 2 2 6 9) : ℤ) : ℚ)) :=
  ⟨by decide, by decide, by decide, by decide,
    C8_jitter_bounds 0 (fun _ => 500) 2 2 6 9 3 (by decide) (by decide) (by decide) (by decide)⟩

/-- Shift invariance of the wall-clock rendering: adding a whole number
of days to an instant does not change its `HH:MM:SS` string. -/
lemma strftime_HMS_int_shift (m : ℤ) (x : ℚ) :
    strftime_HMS ((m : ℚ) * 86400 + x) = strftime_HMS x := by
  unfold strftime_HMS
  have h1 : ((m : ℚ) * 86400 + x) = ((m * 86400 : ℤ) : ℚ) + x := by
    push_cast
    ring
  rw [h1, Int.floor_int_add]
  congr 1
  omega

/-- Shift of the jittered trip time with the start instant. -/
lemma trip_time_shift (m : ℤ) (b tpt : ℚ) (rnd : ℕ → ℕ) (slot : ℕ) :
    trip_time ((m : ℚ) * 86400 + b) tpt rnd slot
      = (m : ℚ) * 86400 + trip_time b tpt rnd slot := by
  unfold trip_time
  ring

/-- Shift invariance of a trip block: moving the trip instant by a whole
number of days leaves every node unchanged. -/
lemma trip_nodes_shift (m : ℤ) (tpa k : ℕ) (x : ℚ) :
    trip_nodes tpa k ((m : ℚ) * 86400 + x) = trip_nodes tpa k x := by
  unfold trip_nodes first_act final_act
  rw [strftime_HMS_int_shift]
  have h : (m : ℚ) * 86400 + x + 30 * 60 = (m : ℚ) * 86400 + (x + 30 * 60) := by
    ring
  rw [h, strftime_HMS_int_shift]

/-- Shift invariance of a whole person subtree with the start instant. -/
lemma person_node_shift (m : ℤ) (b tpt : ℚ) (rnd : ℕ → ℕ) (t i : ℕ) :
    person_node ((m : ℚ) * 86400 + b) tpt rnd t i = person_node b tpt rnd t i := by
  have hmap : ∀ k ∈ List.range t,
      trip_nodes t k (trip_time ((m : ℚ) * 86400 + b) tpt rnd (i * t + k))
        = trip_nodes t k (trip_time b tpt rnd (i * t + k)) := by
    intro k _
    rw [trip_time_shift, trip_nodes_shift]
  simp only [person_node]
  rw [List.map_congr_left hmap]

/-- Day independence of the whole tree: two runs with the same inputs and
the same raw draw stream build identical populations, whatever the
reference day of `datetime.now()` is. -/
lemma create_population_day_irrelevant (d₁ d₂ : ℕ) (rnd : ℕ → ℕ) (a t s e : ℕ) :
    create_population d₁ rnd a t s e = create_population d₂ rnd a t s e := by
  suffices h : ∀ d, create_population d rnd a t s e = create_population 0 rnd a t s e by
    rw [h d₁, h d₂]
  intro d
  unfold create_population
  congr 1
  apply List.map_congr_left
  intro i _
  have hst : start_time d s = ((d : ℤ) : ℚ) * 86400 + start_time 0 s := by
    unfold start_time
    push_cast
    ring
  have htpt : time_per_trip d a t s e = time_per_trip 0 a t s e := by
    unfold time_per_trip
    rw [time_window_eq, time_window_eq]
  rw [hst, htpt, person_node_shift]

/-- C9: with identical inputs and an identical sequence of raw jitter
draws, two runs of `create_population` build identical trees, regardless
of the wall-clock date on which each run executes; hence any serializer,
being a function of the tree, produces identical output text. -/
theorem C9_determinism (d₁ d₂ : ℕ) (rnd : ℕ → ℕ) (a t s e : ℕ)
    (serialize : XNode → String) :
    create_population d₁ rnd a t s e = create_population d₂ rnd a t s e ∧
    serialize (create_population d₁ rnd a t s e)
      = serialize (create_population d₂ rnd a t s e) := by
  have h := create_population_day_irrelevant d₁ d₂ rnd a t s e
  exact ⟨h, congrArg serialize h⟩

/-- Evaluation of the spacing for the end-to-end scenario
`agent_count = 2, trips_per_agent = 2, start 06:00, end 09:00`. -/
lemma tpt_2269 : time_per_trip 0 2 2 6 9 = 2700 := by
  unfold time_per_trip time_window end_time start_time
  norm_num

/-- Evaluation of the jitter amplitude at spacing 2700. -/
lemma mv_2700 : max_variation 2700 = 270 := by
  unfold max_variation
  norm_num

/-- Raw draw 270 yields a zero jitter offset at spacing 2700. -/
lemma var_2700_270 (slot : ℕ) : variation 2700 (fun _ => 270) slot = 0 := by
  unfold variation randint
  rw [mv_2700]
  change (-270 + ((270 : ℕ) : ℤ) % (270 - -270 + 1) : ℤ) = 0
  decide

/-- Evaluation of `strftime` once the floor of the instant is known. -/
lemma strftime_eval (q : ℚ) (n : ℤ) (h : ⌊q⌋ = n) :
    strftime_HMS q = hhmmss ((n % 86400).toNat) := by
  unfold strftime_HMS
  rw [h]

/-- Jittered times of the end-to-end scenario collapse to the nominal
times when every draw is 270. -/
lemma tt_2269 (slot : ℕ) :
    trip_time (start_time 0 6) 2700 (fun _ => 270) slot = 21600 + slot * 2700 := by
  unfold trip_time start_time
  rw [var_2700_270 slot]
  push_cast
  ring

/-- C4: a trip whose jitter offset is zero departs exactly at
`start + slot_index * (window / total_trips)`; in the scenario
`agent_count = 2, trips_per_agent = 2, start_hour = 6, end_hour = 9` with
all-zero jitter the four departure strings are 06:00:00, 06:45:00,
07:30:00 and 08:15:00. -/
theorem C4_nominal_times :
    (∀ (st tpt : ℚ) (rnd : ℕ → ℕ) (slot : ℕ),
      variation tpt rnd slot = 0 →
      trip_time st tpt rnd slot = st + slot * tpt) ∧
    (((plan_of (create_population 0 (fun _ => 270) 2 2 6 9) 0).children.getD 0 d0).getAttr
        "end_time" = some "06:00:00" ∧
     ((plan_of (create_population 0 (fun _ => 270) 2 2 6 9) 0).children.getD 3 d0).getAttr
        "end_time" = some "06:45:00" ∧
     ((plan_of (create_population 0 (fun _ => 270) 2 2 6 9) 1).children.getD 0 d0).getAttr
        "end_time" = some "07:30:00" ∧
     ((plan_of (create_population 0 (fun _ => 270) 2 2 6 9) 1).children.getD 3 d0).getAttr
        "end_time" = some "08:15:00") := by
  constructor
  · intro st tpt rnd slot h
    unfold trip_time
    rw [h]
    push_cast
    ring
  · have key : ∀ i k : ℕ, i < 2 → k < 2 →
        ((plan_of (create_population 0 (fun _ => 270) 2 2 6 9) i).children.getD (3 * k + 0)
          d0).getAttr "end_time"
          = some (strftime_HMS ((21600 + (i * 2 + k) * 2700 : ℚ))) := by
      intro i k hi hk
      rw [plan_getD 0 (fun _ => 270) 2 2 6 9 i k 0 hi hk (by omega), trip_nodes_getD_0,
        (first_act_getAttr _ _).1, tpt_2269, tt_2269]
      push_cast
      ring_nf
    have h00 := key 0 0 (by decide) (by decide)
    have h01 := key 0 1 (by decide) (by decide)
    have h10 := key 1 0 (by decide) (by decide)
    have h11 := key 1 1 (by decide) (by decide)
    norm_num at h00 h01 h10 h11
    have e1 : strftime_HMS (21600 : ℚ) = "06:00:00" := by
      rw [strftime_eval _ 21600 (by norm_num)]
      decide
    have e2 : strftime_HMS (24300 : ℚ) = "06:45:00" := by
      rw [strftime_eval _ 24300 (by norm_num)]
      decide
    have e3 : strftime_HMS (27000 : ℚ) = "07:30:00" := by
      rw [strftime_eval _ 27000 (by norm_num)]
      decide
    have e4 : strftime_HMS (29700 : ℚ) = "08:15:00" := by
      rw [strftime_eval _ 29700 (by norm_num)]
      decide
    simp only [List.getD_eq_getElem?_getD]
    rw [h00, h01, h10, h11, e1, e2, e3, e4]
    exact ⟨rfl, rfl, rfl, rfl⟩

/-- Witness for C4's zero-jitter hypothesis at spacing 2700, draw 270. -/
theorem C4_nominal_times_witness :
    variation 2700 (fun _ => 270) 0 = 0 ∧
    trip_time 100 2700 (fun _ => 270) 0 = 100 + ((0 : ℕ) : ℚ) * 2700 :=
  ⟨var_2700_270 0, C4_nominal_times.1 100 2700 (fun _ => 270) 0 (var_2700_270 0)⟩

/-- Lexicographic comparison of character lists, agreeing with string
order on `HH:MM:SS` strings. -/
def lex_le : List Char → List Char → Bool
  | [], _ => true
  | _ :: _, [] => false
  | a :: as, b :: bs => if a = b then lex_le as bs else decide (a < b)

/-- Check that a list of strings is in nondecreasing lexicographic
order. -/
def chron_sorted : List String → Bool
  | [] => true
  | [_] => true
  | a :: b :: rest => lex_le a.data b.data && chron_sorted (b :: rest)

/-- Absence of an `end_time` attribute on legs. -/
lemma leg_node_getAttr_end_time (w : Bool) : (leg_node w).getAttr "end_time" = none := rfl

/-- Evaluation of the spacing for the overnight scenario
`agent_count = 1, trips_per_agent = 2, start 23:00, end 01:00`. -/
lemma tpt_1223 : time_per_trip 0 1 2 23 1 = 3600 := by
  unfold time_per_trip time_window end_time start_time
  norm_num

/-- Evaluation of the jitter amplitude at spacing 3600. -/
lemma mv_3600 : max_variation 3600 = 360 := by
  unfold max_variation
  norm_num

/-- Raw draw 360 yields a zero jitter offset at spacing 3600. -/
lemma var_3600_360 (slot : ℕ) : variation 3600 (fun _ => 360) slot = 0 := by
  unfold variation randint
  rw [mv_3600]
  change (-360 + ((360 : ℕ) : ℤ) % (360 - -360 + 1) : ℤ) = 0
  decide

/-- Jittered times of the overnight scenario collapse to the nominal
times when every draw is 360. -/
lemma tt_1223 (slot : ℕ) :
    trip_time (start_time 0 23) 3600 (fun _ => 360) slot = 82800 + slot * 3600 := by
  unfold trip_time start_time
  rw [var_3600_360 slot]
  push_cast
  ring

/-- C10: every `end_time` attribute is the wall-clock rendering of the
computed instant reduced modulo 24 hours (floor of the second count, then
mod 86400, then `HH:MM:SS` with no day marker); consequently, in the
overnight scenario `1 agent, 2 trips, 23:00 to 01:00` with zero jitter,
the plan's `end_time` strings are 23:00:00, 23:30:00, 00:00:00 — not in
nondecreasing order. -/
theorem C10_wallclock (day : ℕ) (rnd : ℕ → ℕ) (a t s e i k : ℕ) (hi : i < a) (hk : k < t) :
    (((plan_of (create_population day rnd a t s e) i).children.getD (3 * k) d0).getAttr "end_time"
        = some (hhmmss ((⌊trip_time (start_time day s) (time_per_trip day a t s e) rnd
            (i * t + k)⌋ % 86400).toNat)) ∧
     (k < t - 1 →
       ((plan_of (create_population day rnd a t s e) i).children.getD (3 * k + 2) d0).getAttr
           "end_time"
         = some (hhmmss ((⌊trip_time (start_time day s) (time_per_trip day a t s e) rnd
             (i * t + k) + 30 * 60⌋ % 86400).toNat)))) ∧
    (plan_end_times (create_population 0 (fun _ => 360) 1 2 23 1) 0
        = ["23:00:00", "23:30:00", "00:00:00"] ∧
     chron_sorted ["23:00:00", "23:30:00", "00:00:00"] = false) := by
  have h0 := plan_getD day rnd a t s e i k 0 hi hk (by omega)
  have h2 := plan_getD day rnd a t s e i k 2 hi hk (by omega)
  simp only [Nat.add_zero] at h0
  refine ⟨⟨?_, ?_⟩, ?_, ?_⟩
  · rw [h0, trip_nodes_getD_0, (first_act_getAttr _ _).1]
    rfl
  · intro hlt
    rw [h2, trip_nodes_getD_2, final_act_getAttr_end_time_of_lt _ _ _ _ hlt]
    rfl
  · have f1 : (first_act ((0 : ℕ) % 2 == 1) (82800 : ℚ)).getAttr "end_time"
        = some (strftime_HMS 82800) := (first_act_getAttr _ _).1
    have f2 : (first_act ((1 : ℕ) % 2 == 1) (86400 : ℚ)).getAttr "end_time"
        = some (strftime_HMS 86400) := (first_act_getAttr _ _).1
    have g1 : (final_act ((0 : ℕ) % 2 == 1) 2 0 (82800 : ℚ)).getAttr "end_time"
        = some (strftime_HMS (82800 + 30 * 60)) :=
      final_act_getAttr_end_time_of_lt _ _ _ _ (by norm_num)
    have g2 : (final_act ((1 : ℕ) % 2 == 1) 2 1 (86400 : ℚ)).getAttr "end_time" = none :=
      final_act_getAttr_end_time_of_last _ _ _ _ (by norm_num)
    have s1 : strftime_HMS (82800 : ℚ) = "23:00:00" := by
      rw [strftime_eval _ 82800 (by norm_num)]
      decide
    have s2 : strftime_HMS ((82800 : ℚ) + 30 * 60) = "23:30:00" := by
      rw [strftime_eval _ 84600 (by norm_num)]
      decide
    have s3 : strftime_HMS (86400 : ℚ) = "00:00:00" := by
      rw [strftime_eval _ 86400 (by norm_num)]
      decide
    have ht0 : trip_time (start_time 0 23) 3600 (fun _ => 360) 0 = 82800 := by
      rw [tt_1223 0]
      norm_num
    have ht1 : trip_time (start_time 0 23) 3600 (fun _ => 360) 1 = 86400 := by
      rw [tt_1223 1]
      norm_num
    unfold plan_end_times
    rw [plan_children_eq 0 (fun _ => 360) 1 2 23 1 0 (by decide)]
    simp only [tpt_1223, show List.range 2 = [0, 1] from rfl, List.map_cons, List.map_nil,
      List.flatten_cons, List.flatten_nil, List.append_nil, Nat.zero_mul, Nat.zero_add]
    rw [ht0, ht1]
    simp only [trip_nodes, List.filterMap_append, List.filterMap_cons, List.filterMap_nil,
      f1, f2, g1, g2, leg_node_getAttr_end_time, s1, s2, s3]
    rfl
  · decide

/-- Witness for C10 at one agent with a single trip starting at 00:00. -/
theorem C10_wallclock_witness :
    0 < 1 ∧ 0 < 1 ∧
    (((plan_of (create_population 0 (fun _ => 0) 1 1 0 1) 0).children.getD 0 d0).getAttr
        "end_time"
      = some (hhmmss ((⌊trip_time (start_time 0 0) (time_per_trip 0 1 1 0 1) (fun _ => 0)
          0⌋ % 86400).toNat))) ∧
    (0 < 1 - 1 →
      ((plan_of (create_population 0 (fun _ => 0) 1 1 0 1) 0).children.getD 2 d0).getAttr
          "end_time"
        = some (hhmmss ((⌊trip_time (start_time 0 0) (time_per_trip 0 1 1 0 1) (fun _ => 0)
            0 + 30 * 60⌋ % 86400).toNat))) :=
  ⟨by decide, by decide,
    ((C10_wallclock 0 (fun _ => 0) 1 1 0 1 0 0 (by decide) (by decide)).1).1,
    ((C10_wallclock 0 (fun _ => 0) 1 1 0 1 0 0 (by decide) (by decide)).1).2⟩
